import Mathlib

/-!
Verification of the API smoke-test harness (test runner `tests/api_tests.py`
and consumer `functions/TestResultProcessor/__init__.py`).

The runner executes a configured list of HTTP checks, aggregates outcomes
into a suite summary, and a separate consumer derives a notification summary
from the serialized payload.  We embed the pure decision logic of both
programs, treating the network as an oracle: each outbound request either
yields a response (status code plus whether the body parses as JSON), times
out, or fails at the transport level.
-/

namespace ApiTests

/-- One test definition as loaded from the JSON config.  Optional fields
mirror the Python dict: `expected_status` defaults to 200, `timeout` to 30
and `validate_json` to `False` at their use sites (`test_config.get`). -/
structure TestDefinition where
  name : String
  url : String
  method : String
  expected_status : Option Nat := none
  timeout : Option Nat := none
  validate_json : Option Bool := none
  deriving Repr, DecidableEq

/-- Effective expected status: `test_config.get('expected_status', 200)`. -/
def TestDefinition.expectedStatus (tc : TestDefinition) : Nat :=
  tc.expected_status.getD 200

/-- Effective timeout: `test_config.get('timeout', 30)`. -/
def TestDefinition.timeoutD (tc : TestDefinition) : Nat :=
  tc.timeout.getD 30

/-- Effective JSON-validation flag: `test_config.get('validate_json', False)`. -/
def TestDefinition.validateJson (tc : TestDefinition) : Bool :=
  tc.validate_json.getD false

/-- What the network does for one outbound request: a response (with status
code and whether `response.json()` succeeds on the body), a
`requests.exceptions.Timeout`, or any other transport-level exception with
its message. -/
inductive HttpOutcome where
  | response (status_code : Nat) (bodyIsJson : Bool)
  | timeout
  | transportError (msg : String)
  deriving Repr, DecidableEq

/-- The result dict built by `run_single_test`, restricted to its data
fields (the prints are side effects). -/
structure TestResult where
  test_name : String
  test_id : String
  url : String
  method : String
  status : String
  start_time : String
  duration_ms : Nat
  error : Option String := none
  response_status : Option Nat := none
  response_time_ms : Nat := 0
  environment : String
  runner : String
  deriving Repr, DecidableEq

/-- Ambient per-run state of `APITestRunner` used by the executor. -/
structure RunnerState where
  test_id : String
  environment : String
  runner_label : String
  deriving Repr, DecidableEq

/-- Character-wise upper-casing, modelling Python `str.upper()` on the
ASCII method names used by the config. -/
def pyUpper (s : String) : String :=
  String.mk (s.data.map Char.toUpper)

/-- The dispatch in `run_single_test` handles exactly GET/POST/PUT/DELETE;
anything else raises `ValueError(f"Unsupported method: {method}")`. -/
def methodSupported (m : String) : Bool :=
  m = "GET" || m = "POST" || m = "PUT" || m = "DELETE"

/-- `APITestRunner.run_single_test` (api_tests.py lines 125-204).
`net` is the network oracle for the single outbound request, `startTime`
the recorded start timestamp and `elapsed` the wall-clock milliseconds
elapsed when the result is finalized.  The dict is initialized with
`status='failed'`; the method is upper-cased before dispatch; an unsupported
method raises a `ValueError` caught by the outer `except Exception`; on a
response the status comparison sets passed/failed and an optional
`validate_json` check can downgrade to failed; timeout and transport errors
record an error and leave the initial failed status. -/
def run_single_test (rs : RunnerState) (tc : TestDefinition)
    (net : HttpOutcome) (startTime : String) (elapsed : Nat) : TestResult :=
  let init : TestResult :=
    { test_name := tc.name
      test_id := rs.test_id
      url := tc.url
      method := tc.method
      status := "failed"
      start_time := startTime
      duration_ms := 0
      error := none
      response_status := none
      response_time_ms := 0
      environment := rs.environment
      runner := rs.runner_label }
  let method := pyUpper tc.method
  if methodSupported method then
    match net with
    | HttpOutcome.response code bodyIsJson =>
      let r1 := { init with duration_ms := elapsed
                            response_status := some code
                            response_time_ms := elapsed }
      let r2 :=
        if code = tc.expectedStatus then
          { r1 with status := "passed" }
        else
          { r1 with status := "failed"
                    error := some ("Expected " ++ toString tc.expectedStatus
                                   ++ ", got " ++ toString code) }
      if tc.validateJson && !bodyIsJson then
        { r2 with status := "failed", error := some "Invalid JSON response" }
      else r2
    | HttpOutcome.timeout =>
      { init with error := some ("Request timeout after "
                                 ++ toString tc.timeoutD ++ "s")
                  duration_ms := elapsed }
    | HttpOutcome.transportError msg =>
      { init with error := some msg, duration_ms := elapsed }
  else
    { init with error := some ("Unsupported method: " ++ method)
                duration_ms := elapsed }

/-- A parsed config JSON value at the granularity `load_test_config`
inspects it: a falsy value (`if not config_data` refers back to the
default), a truthy dict carrying an `api_tests` list, or a truthy value
without an `api_tests` key (so `config_data['api_tests']` raises
`KeyError`). -/
inductive ParsedConfig where
  | falsy
  | withTests (tests : List TestDefinition)
  | withoutTests
  deriving Repr, DecidableEq

/-- What the loader finds at one candidate config path: the file is absent
(`FileNotFoundError`, the only exception the loop catches), the file exists
but opening or `json.load` raises (e.g. `json.JSONDecodeError`,
`PermissionError`), or it parses to a JSON value. -/
inductive FileState where
  | missing
  | raises (msg : String)
  | parsed (v : ParsedConfig)
  deriving Repr, DecidableEq

/-- The candidate config paths tried, in order, depending on the detected
environment (api_tests.py lines 76-88). -/
def config_paths (environment : String) : List String :=
  if environment = "kubernetes" then
    ["/config/test_config.json",
     "/workspace/tests/test_config.json",
     "tests/test_config.json",
     "test_config.json"]
  else
    ["tests/test_config.json",
     "test_config.json",
     "../tests/test_config.json"]

/-- The hardcoded fallback test list (api_tests.py lines 103-121). -/
def default_tests : List TestDefinition :=
  [{ name := "HTTPBin Status Check"
     url := "https://httpbin.org/status/200"
     method := "GET"
     expected_status := some 200
     timeout := some 10 },
   { name := "HTTPBin JSON Test"
     url := "https://httpbin.org/json"
     method := "GET"
     expected_status := some 200
     timeout := some 10
     validate_json := some true }]

/-- The `for path in config_paths` loop of `load_test_config`: a missing
file is skipped (`except FileNotFoundError: continue`), any other exception
from opening or parsing propagates, and the first successfully parsed value
wins (`break`). -/
def load_loop : List FileState → Except String (Option ParsedConfig)
  | [] => Except.ok none
  | FileState.missing :: rest => load_loop rest
  | FileState.raises msg :: _ => Except.error msg
  | FileState.parsed v :: _ => Except.ok (some v)

/-- `APITestRunner.load_test_config` (api_tests.py lines 73-123).
`fs` maps each candidate path to what the filesystem holds there.  After
the loop, a falsy (or absent) `config_data` is replaced by the hardcoded
default dict, and the `api_tests` entry is returned — raising `KeyError`
when a truthy parsed config lacks it. -/
def load_test_config (environment : String) (fs : String → FileState) :
    Except String (List TestDefinition) :=
  match load_loop ((config_paths environment).map fs) with
  | Except.error e => Except.error e
  | Except.ok none => Except.ok default_tests
  | Except.ok (some ParsedConfig.falsy) => Except.ok default_tests
  | Except.ok (some (ParsedConfig.withTests ts)) => Except.ok ts
  | Except.ok (some ParsedConfig.withoutTests) => Except.error "KeyError: api_tests"

/-- The suite summary dict built by `run_all_tests`, restricted to its data
fields. -/
structure SuiteSummary where
  test_suite_id : String
  timestamp : String
  total_tests : Nat
  passed_tests : Nat
  failed_tests : Nat
  success_rate : ℚ
  total_duration_ms : Nat
  environment : String
  runner : String
  git_commit : String
  git_branch : String
  github_run_id : String
  github_repository : String
  test_results : List TestResult
  deriving Repr, DecidableEq

/-- The sequential loop of `run_all_tests`: one executor call per config
entry, in order, with the network oracle, start timestamp and elapsed time
of the i-th request indexed by position. -/
def run_results (rs : RunnerState) (configs : List TestDefinition)
    (net : Nat → HttpOutcome) (startTimes : Nat → String)
    (elapsed : Nat → Nat) : List TestResult :=
  configs.enum.map fun p => run_single_test rs p.2 (net p.1) (startTimes p.1) (elapsed p.1)

/-- `APITestRunner.run_all_tests` (api_tests.py lines 206-253).  Loads the
config (any exception from `load_test_config` propagates), runs each test,
then computes `total`, `passed` (count of results with status `'passed'`),
`failed = total - passed` and
`success_rate = passed/total*100 if total > 0 else 0`.  `getenv` models
`os.environ.get`, `timestamp` the summary timestamp and `suiteElapsed` the
suite wall-clock duration in ms. -/
def run_all_tests (rs : RunnerState) (getenv : String → Option String)
    (timestamp : String) (fs : String → FileState)
    (net : Nat → HttpOutcome) (startTimes : Nat → String)
    (elapsed : Nat → Nat) (suiteElapsed : Nat) :
    Except String SuiteSummary :=
  match load_test_config rs.environment fs with
  | Except.error e => Except.error e
  | Except.ok configs =>
    let results := run_results rs configs net startTimes elapsed
    let total_tests := results.length
    let passed_tests := (results.filter fun r => r.status = "passed").length
    let failed_tests := total_tests - passed_tests
    let success_rate : ℚ :=
      if total_tests > 0 then (passed_tests : ℚ) / (total_tests : ℚ) * 100 else 0
    Except.ok
      { test_suite_id := rs.test_id
        timestamp := timestamp
        total_tests := total_tests
        passed_tests := passed_tests
        failed_tests := failed_tests
        success_rate := success_rate
        total_duration_ms := suiteElapsed
        environment := rs.environment
        runner := rs.runner_label
        git_commit := (getenv "GITHUB_SHA").getD "unknown"
        git_branch := (getenv "GITHUB_REF").getD "unknown"
        github_run_id := (getenv "GITHUB_RUN_ID").getD "unknown"
        github_repository := (getenv "GITHUB_REPOSITORY").getD "unknown"
        test_results := results }

/-- The exit decision of `main` (api_tests.py lines 314-320):
`exit(1)` when `summary['failed_tests'] > 0`, else `exit(0)`. -/
def main_exit_code (summary : SuiteSummary) : Nat :=
  if summary.failed_tests > 0 then 1 else 0

/-- One entry of the consumer's `failed_test_details` list
(TestResultProcessor/__init__.py lines 66-72).  `status_code` keeps the
runner's optional `response_status` (`None` rendered as absent). -/
structure FailedDetail where
  name : String
  error : String
  url : String
  status_code : Option Nat
  deriving Repr, DecidableEq

/-- The consumer's derived summary dict (TestResultProcessor/__init__.py
lines 74-89). -/
structure NotificationSummary where
  status : String
  alert_level : String
  color : String
  total_tests : Nat
  passed_tests : Nat
  failed_tests : Nat
  success_rate : ℚ
  duration_seconds : ℚ
  environment : String
  failed_details : List FailedDetail
  git_commit : String
  git_branch : String
  github_run_id : String
  repository : String
  deriving Repr, DecidableEq

/-- `process_test_results` (TestResultProcessor/__init__.py lines 38-92).
The payload is the serialized SuiteSummary.  Status/alert/color follow the
`failed_tests == 0` / `success_rate >= 80` / else chain; failed-test
details are collected from results whose status is `'failed'` or `'error'`
and truncated to the first 5; the commit hash is cut to 8 characters and
the `refs/heads/` prefix stripped from the branch. -/
def process_test_results (tr : SuiteSummary) : NotificationSummary :=
  let statusColor : String × String × String :=
    if tr.failed_tests = 0 then
      ("✅ ALL TESTS PASSED", "success", "good")
    else if tr.success_rate ≥ 80 then
      ("⚠️ PARTIAL SUCCESS", "warning", "warning")
    else
      ("❌ TESTS FAILED", "error", "danger")
  let failed_test_details :=
    (tr.test_results.filter fun r => r.status = "failed" || r.status = "error").map
      fun r =>
        { name := r.test_name
          error := r.error.getD "No error message"
          url := r.url
          status_code := r.response_status : FailedDetail }
  { status := statusColor.1
    alert_level := statusColor.2.1
    color := statusColor.2.2
    total_tests := tr.total_tests
    passed_tests := tr.passed_tests
    failed_tests := tr.failed_tests
    success_rate := tr.success_rate
    duration_seconds := if tr.total_duration_ms ≠ 0 then (tr.total_duration_ms : ℚ) / 1000 else 0
    environment := tr.environment
    failed_details := failed_test_details.take 5
    git_commit := tr.git_commit.take 8
    git_branch := tr.git_branch.replace "refs/heads/" ""
    github_run_id := tr.github_run_id
    repository := tr.github_repository }

/-! ### Helper lemmas -/

/-- Every result of the executor carries status `'passed'` or `'failed'`:
the dict starts as `'failed'` and the only assignments write one of the
two literals. -/
theorem run_single_test_status_cases (rs : RunnerState) (tc : TestDefinition)
    (net : HttpOutcome) (startTime : String) (elapsed : Nat) :
    (run_single_test rs tc net startTime elapsed).status = "passed" ∨
    (run_single_test rs tc net startTime elapsed).status = "failed" := by
  cases net with
  | response code bodyIsJson =>
    simp only [run_single_test]
    split
    · split
      · simp
      · split <;> simp
    · simp
  | timeout =>
    simp only [run_single_test]
    split <;> simp
  | transportError msg =>
    simp only [run_single_test]
    split <;> simp

/-! ### Concrete sample inputs used by witnesses -/

/-- A concrete runner state. -/
def sampleRunner : RunnerState :=
  { test_id := "test-20260101-000000-abcdef01"
    environment := "local-machine"
    runner_label := "Local Machine" }

/-- A concrete GET definition with default expected status. -/
def getDef : TestDefinition :=
  { name := "Sample GET", url := "https://example.com/health", method := "GET" }

/-- A concrete definition with an unsupported method. -/
def patchDef : TestDefinition :=
  { name := "Sample PATCH", url := "https://example.com/x", method := "PATCH" }

/-- A concrete JSON-validating GET definition. -/
def jsonDef : TestDefinition :=
  { name := "Sample JSON", url := "https://example.com/json", method := "GET"
    validate_json := some true }

/-! ### Claim theorems: the test executor -/

/-- C4: the executor always returns one `TestResult` (in the embedding,
`run_single_test` is a total function into `TestResult`); in particular a
definition whose upper-cased method is not GET/POST/PUT/DELETE yields a
returned result with status `'failed'` and the `ValueError` message
recorded, regardless of the network oracle. -/
theorem unsupported_method_fails (rs : RunnerState) (tc : TestDefinition)
    (net : HttpOutcome) (startTime : String) (elapsed : Nat)
    (h : methodSupported (pyUpper tc.method) = false) :
    (run_single_test rs tc net startTime elapsed).status = "failed" ∧
    (run_single_test rs tc net startTime elapsed).error =
      some ("Unsupported method: " ++ pyUpper tc.method) := by
  simp [run_single_test, h]

/-- Witness for C4 at the concrete method `PATCH`. -/
theorem unsupported_method_fails_witness :
    (run_single_test sampleRunner patchDef (HttpOutcome.response 200 true)
      "2026-01-01T00:00:00Z" 5).status = "failed" ∧
    (run_single_test sampleRunner patchDef (HttpOutcome.response 200 true)
      "2026-01-01T00:00:00Z" 5).error = some "Unsupported method: PATCH" :=
  unsupported_method_fails sampleRunner patchDef (HttpOutcome.response 200 true)
    "2026-01-01T00:00:00Z" 5 (by decide)

/-- C5: for a supported method and no JSON-validation requirement, a
received response yields status `'passed'` iff its code equals the
effective expected status; on mismatch the status is `'failed'` and the
error is exactly `"Expected {expected}, got {actual}"`. -/
theorem status_match_decides_outcome (rs : RunnerState) (tc : TestDefinition)
    (startTime : String) (elapsed : Nat) (code : Nat) (bodyIsJson : Bool)
    (hm : methodSupported (pyUpper tc.method) = true)
    (hv : tc.validateJson = false) :
    ((run_single_test rs tc (HttpOutcome.response code bodyIsJson)
        startTime elapsed).status = "passed" ↔ code = tc.expectedStatus) ∧
    (code ≠ tc.expectedStatus →
      (run_single_test rs tc (HttpOutcome.response code bodyIsJson)
        startTime elapsed).status = "failed" ∧
      (run_single_test rs tc (HttpOutcome.response code bodyIsJson)
        startTime elapsed).error =
        some ("Expected " ++ toString tc.expectedStatus
              ++ ", got " ++ toString code)) := by
  constructor
  · constructor
    · intro hp
      by_contra hne
      simp [run_single_test, hm, hv, hne] at hp
    · intro he
      simp [run_single_test, hm, hv, he]
  · intro hne
    constructor
    · simp [run_single_test, hm, hv, hne]
    · simp [run_single_test, hm, hv, hne]

/-- Witness for C5 at a concrete mismatching response (expected 200,
got 404). -/
theorem status_match_decides_outcome_witness :
    (run_single_test sampleRunner getDef (HttpOutcome.response 404 true)
      "2026-01-01T00:00:00Z" 5).status = "failed" ∧
    (run_single_test sampleRunner getDef (HttpOutcome.response 404 true)
      "2026-01-01T00:00:00Z" 5).error = some "Expected 200, got 404" :=
  (status_match_decides_outcome sampleRunner getDef "2026-01-01T00:00:00Z" 5
    404 true (by decide) (by decide)).2 (by decide)

/-- C6: for a supported method with `validate_json` requested, a response
whose body does not parse as JSON yields status `'failed'` with the
validation error `"Invalid JSON response"` — for every status code,
including one equal to the expected status. -/
theorem validate_json_overrides (rs : RunnerState) (tc : TestDefinition)
    (startTime : String) (elapsed : Nat) (code : Nat)
    (hm : methodSupported (pyUpper tc.method) = true)
    (hv : tc.validateJson = true) :
    (run_single_test rs tc (HttpOutcome.response code false)
      startTime elapsed).status = "failed" ∧
    (run_single_test rs tc (HttpOutcome.response code false)
      startTime elapsed).error = some "Invalid JSON response" := by
  constructor <;> simp [run_single_test, hm, hv]

/-- Witness for C6 at a response whose status code 200 matches the
expected status but whose body is not JSON. -/
theorem validate_json_overrides_witness :
    (run_single_test sampleRunner jsonDef (HttpOutcome.response 200 false)
      "2026-01-01T00:00:00Z" 5).status = "failed" ∧
    (run_single_test sampleRunner jsonDef (HttpOutcome.response 200 false)
      "2026-01-01T00:00:00Z" 5).error = some "Invalid JSON response" :=
  validate_json_overrides sampleRunner jsonDef "2026-01-01T00:00:00Z" 5 200
    (by decide) (by decide)

/-- C10: a result with status `'passed'` always records a response status
equal to the definition's effective expected status — the status is set to
`'passed'` only on the response branch where the codes match, so no
exception path (unsupported method, timeout, transport error) can produce
a passed result. -/
theorem passed_implies_expected_response_status (rs : RunnerState)
    (tc : TestDefinition) (net : HttpOutcome) (startTime : String)
    (elapsed : Nat)
    (h : (run_single_test rs tc net startTime elapsed).status = "passed") :
    (run_single_test rs tc net startTime elapsed).response_status =
      some tc.expectedStatus := by
  cases net with
  | response code bodyIsJson =>
    by_cases hm : methodSupported (pyUpper tc.method)
    · by_cases hc : code = tc.expectedStatus
      · by_cases hj : tc.validateJson && !bodyIsJson
        · subst hc; simp [run_single_test, hm, hj]
        · subst hc; simp [run_single_test, hm, hj]
      · by_cases hj : tc.validateJson && !bodyIsJson
        · simp [run_single_test, hm, hc, hj] at h
        · simp [run_single_test, hm, hc, hj] at h
    · simp [run_single_test, hm] at h
  | timeout =>
    by_cases hm : methodSupported (pyUpper tc.method) <;>
      simp [run_single_test, hm] at h
  | transportError msg =>
    by_cases hm : methodSupported (pyUpper tc.method) <;>
      simp [run_single_test, hm] at h

/-- Witness for C10 at a concrete passing run (GET, response 200). -/
theorem passed_implies_expected_response_status_witness :
    (run_single_test sampleRunner getDef (HttpOutcome.response 200 true)
      "2026-01-01T00:00:00Z" 5).response_status = some 200 :=
  passed_implies_expected_response_status sampleRunner getDef
    (HttpOutcome.response 200 true) "2026-01-01T00:00:00Z" 5 (by decide)

/-! ### Suite-level helper lemmas and sample run -/

/-- Characterization of a successfully produced suite summary: how
`run_all_tests` fills the aggregate fields, and that every collected
result has status `'passed'` or `'failed'`. -/
theorem run_all_tests_ok_spec (rs : RunnerState) (getenv : String → Option String)
    (timestamp : String) (fs : String → FileState) (net : Nat → HttpOutcome)
    (startTimes : Nat → String) (elapsed : Nat → Nat) (suiteElapsed : Nat)
    (s : SuiteSummary)
    (h : run_all_tests rs getenv timestamp fs net startTimes elapsed suiteElapsed
           = Except.ok s) :
    s.total_tests = s.test_results.length ∧
    s.passed_tests = (s.test_results.filter fun r => r.status = "passed").length ∧
    s.failed_tests = s.total_tests - s.passed_tests ∧
    s.success_rate = (if s.total_tests > 0 then
        (s.passed_tests : ℚ) / (s.total_tests : ℚ) * 100 else 0) ∧
    ∀ r ∈ s.test_results, r.status = "passed" ∨ r.status = "failed" := by
  unfold run_all_tests at h
  revert h
  cases hl : load_test_config rs.environment fs with
  | error e => intro h; cases h
  | ok configs =>
    intro h
    injection h with h
    subst h
    refine ⟨rfl, rfl, rfl, rfl, ?_⟩
    intro r hr
    simp only [run_results, List.mem_map] at hr
    obtain ⟨p, _, rfl⟩ := hr
    exact run_single_test_status_cases rs p.2 (net p.1) (startTimes p.1) (elapsed p.1)

/-- A filesystem with no config file at any path. -/
def allMissing : String → FileState := fun _ => FileState.missing

/-- An environment with no variables set. -/
def noEnvVars : String → Option String := fun _ => none

/-- A network oracle answering every request with a 200 JSON response. -/
def okNet : Nat → HttpOutcome := fun _ => HttpOutcome.response 200 true

/-- Concrete per-test start timestamps. -/
def sampleStarts : Nat → String := fun _ => "2026-01-01T00:00:00Z"

/-- Concrete per-test elapsed milliseconds. -/
def sampleElapsed : Nat → Nat := fun _ => 5

/-- A placeholder summary (only used for the impossible error branch when
naming the concrete sample run's summary). -/
def fallbackSummary : SuiteSummary :=
  { test_suite_id := "", timestamp := "", total_tests := 0, passed_tests := 0,
    failed_tests := 0, success_rate := 0, total_duration_ms := 0,
    environment := "", runner := "", git_commit := "", git_branch := "",
    github_run_id := "", github_repository := "", test_results := [] }

/-- The summary of a concrete run: no config file (so the default tests
run) and a network answering 200 with JSON bodies, so both default tests
pass. -/
def sampleSummary : SuiteSummary :=
  match run_all_tests sampleRunner noEnvVars "2026-01-01T00:00:01Z" allMissing
          okNet sampleStarts sampleElapsed 12 with
  | Except.ok s => s
  | Except.error _ => fallbackSummary

/-- The concrete sample run indeed produces `sampleSummary`. -/
theorem sampleSummary_run :
    run_all_tests sampleRunner noEnvVars "2026-01-01T00:00:01Z" allMissing
      okNet sampleStarts sampleElapsed 12 = Except.ok sampleSummary := rfl

/-- The summary of a concrete run whose config file parses to an empty
`api_tests` list, so zero tests run. -/
def emptySummary : SuiteSummary :=
  match run_all_tests sampleRunner noEnvVars "2026-01-01T00:00:01Z"
          (fun p => if p = "tests/test_config.json" then
             FileState.parsed (ParsedConfig.withTests []) else FileState.missing)
          okNet sampleStarts sampleElapsed 3 with
  | Except.ok s => s
  | Except.error _ => fallbackSummary

/-- The concrete empty run indeed produces `emptySummary`. -/
theorem emptySummary_run :
    run_all_tests sampleRunner noEnvVars "2026-01-01T00:00:01Z"
      (fun p => if p = "tests/test_config.json" then
         FileState.parsed (ParsedConfig.withTests []) else FileState.missing)
      okNet sampleStarts sampleElapsed 3 = Except.ok emptySummary := rfl

/-! ### Claim theorems: the suite runner -/

/-- C1: every suite summary produced by `run_all_tests` satisfies
`passed_tests + failed_tests = total_tests`. -/
theorem passed_add_failed_eq_total (rs : RunnerState)
    (getenv : String → Option String) (timestamp : String)
    (fs : String → FileState) (net : Nat → HttpOutcome)
    (startTimes : Nat → String) (elapsed : Nat → Nat) (suiteElapsed : Nat)
    (s : SuiteSummary)
    (h : run_all_tests rs getenv timestamp fs net startTimes elapsed suiteElapsed
           = Except.ok s) :
    s.passed_tests + s.failed_tests = s.total_tests := by
  obtain ⟨ht, hp, hf, -, -⟩ :=
    run_all_tests_ok_spec rs getenv timestamp fs net startTimes elapsed
      suiteElapsed s h
  rw [hf]
  refine Nat.add_sub_cancel' ?_
  rw [hp, ht]
  exact List.length_filter_le _ _

/-- Witness for C1 at the concrete sample run. -/
theorem passed_add_failed_eq_total_witness :
    sampleSummary.passed_tests + sampleSummary.failed_tests
      = sampleSummary.total_tests :=
  passed_add_failed_eq_total sampleRunner noEnvVars "2026-01-01T00:00:01Z"
    allMissing okNet sampleStarts sampleElapsed 12 sampleSummary
    sampleSummary_run

/-- C2: every suite summary produced by `run_all_tests` has
`success_rate = 0` when `total_tests = 0` and otherwise
`success_rate = passed_tests / total_tests * 100` (exact rational
arithmetic in the embedding, within floating rounding in Python). -/
theorem success_rate_formula (rs : RunnerState)
    (getenv : String → Option String) (timestamp : String)
    (fs : String → FileState) (net : Nat → HttpOutcome)
    (startTimes : Nat → String) (elapsed : Nat → Nat) (suiteElapsed : Nat)
    (s : SuiteSummary)
    (h : run_all_tests rs getenv timestamp fs net startTimes elapsed suiteElapsed
           = Except.ok s) :
    (s.total_tests = 0 → s.success_rate = 0) ∧
    (s.total_tests ≠ 0 →
      s.success_rate = (s.passed_tests : ℚ) / (s.total_tests : ℚ) * 100) := by
  obtain ⟨-, -, -, hr, -⟩ :=
    run_all_tests_ok_spec rs getenv timestamp fs net startTimes elapsed
      suiteElapsed s h
  constructor
  · intro h0
    rw [hr, h0]
    simp
  · intro h0
    rw [hr, if_pos (Nat.pos_of_ne_zero h0)]

/-- Witness for C2: the concrete empty run has rate 0, and the concrete
two-test run satisfies the division formula. -/
theorem success_rate_formula_witness :
    emptySummary.success_rate = 0 ∧
    sampleSummary.success_rate =
      (sampleSummary.passed_tests : ℚ) / (sampleSummary.total_tests : ℚ) * 100 :=
  ⟨(success_rate_formula sampleRunner noEnvVars "2026-01-01T00:00:01Z"
      (fun p => if p = "tests/test_config.json" then
         FileState.parsed (ParsedConfig.withTests []) else FileState.missing)
      okNet sampleStarts sampleElapsed 3 emptySummary emptySummary_run).1 rfl,
   (success_rate_formula sampleRunner noEnvVars "2026-01-01T00:00:01Z"
      allMissing okNet sampleStarts sampleElapsed 12 sampleSummary
      sampleSummary_run).2 (by decide)⟩

/-- C9: for every produced suite summary, `main` exits 0 iff every
collected test result passed, and exits 1 iff some collected test result
failed. -/
theorem exit_code_matches_outcomes (rs : RunnerState)
    (getenv : String → Option String) (timestamp : String)
    (fs : String → FileState) (net : Nat → HttpOutcome)
    (startTimes : Nat → String) (elapsed : Nat → Nat) (suiteElapsed : Nat)
    (s : SuiteSummary)
    (h : run_all_tests rs getenv timestamp fs net startTimes elapsed suiteElapsed
           = Except.ok s) :
    (main_exit_code s = 0 ↔ ∀ r ∈ s.test_results, r.status = "passed") ∧
    (main_exit_code s = 1 ↔ ∃ r ∈ s.test_results, r.status = "failed") := by
  obtain ⟨ht, hp, hf, -, hdich⟩ :=
    run_all_tests_ok_spec rs getenv timestamp fs net startTimes elapsed
      suiteElapsed s h
  have hple : s.passed_tests ≤ s.total_tests := by
    rw [hp, ht]; exact List.length_filter_le _ _
  have key : s.failed_tests = 0 ↔ ∀ r ∈ s.test_results, r.status = "passed" := by
    constructor
    · intro h0 r hr
      have hflen : (s.test_results.filter fun r => r.status = "passed").length
          = s.test_results.length := by omega
      have := List.filter_length_eq_length.mp hflen r hr
      simpa using this
    · intro hall
      have hflen : (s.test_results.filter fun r => r.status = "passed").length
          = s.test_results.length := by
        apply List.filter_length_eq_length.mpr
        intro a ha
        simpa using hall a ha
      omega
  have hexit0 : main_exit_code s = 0 ↔ s.failed_tests = 0 := by
    unfold main_exit_code; split <;> omega
  have hexit1 : main_exit_code s = 1 ↔ s.failed_tests ≠ 0 := by
    unfold main_exit_code; split <;> omega
  constructor
  · exact hexit0.trans key
  · rw [hexit1]
    constructor
    · intro hne
      have hnall : ¬ ∀ r ∈ s.test_results, r.status = "passed" :=
        fun hall => hne (key.mpr hall)
      push_neg at hnall
      obtain ⟨r, hr, hnp⟩ := hnall
      exact ⟨r, hr, (hdich r hr).resolve_left hnp⟩
    · rintro ⟨r, hr, hfail⟩ hfz
      have hpassed := key.mp hfz r hr
      rw [hpassed] at hfail
      exact absurd hfail (by decide)

/-- Witness for C9: the concrete sample run (both default tests pass)
exits 0. -/
theorem exit_code_matches_outcomes_witness :
    main_exit_code sampleSummary = 0 :=
  (exit_code_matches_outcomes sampleRunner noEnvVars "2026-01-01T00:00:01Z"
    allMissing okNet sampleStarts sampleElapsed 12 sampleSummary
    sampleSummary_run).1.mpr (by decide)

/-! ### Claim theorems: the config loader -/

/-- The candidate loop returns "nothing found" when every entry is a
missing file. -/
theorem load_loop_all_missing (l : List FileState)
    (h : ∀ x ∈ l, x = FileState.missing) :
    load_loop l = Except.ok none := by
  induction l with
  | nil => rfl
  | cons a l ih =>
    have ha := h a (List.mem_cons_self a l)
    subst ha
    exact ih fun x hx => h x (List.mem_cons_of_mem _ hx)

/-- C3 counterexample: the loader is *not* total.  With a config file
present at `tests/test_config.json` whose contents fail to parse as JSON,
`load_test_config` propagates the `json.JSONDecodeError` (only
`FileNotFoundError` is caught by the loop) instead of returning the
default tests. -/
theorem load_test_config_raises_on_unparseable :
    load_test_config "local-machine"
      (fun p => if p = "tests/test_config.json" then
         FileState.raises "Expecting value: line 1 column 1 (char 0)"
       else FileState.missing)
      = Except.error "Expecting value: line 1 column 1 (char 0)" := rfl

/-- C3 (amended): the loader skips only missing candidate files; when
every candidate path is missing it returns — without error — the
hardcoded default sequence, which contains a JSON-validating test and a
plain expected-200 test with no body validation.  (A candidate that
exists but cannot be parsed instead makes the loader raise, see the
counterexample.) -/
theorem load_test_config_default_when_all_missing (environment : String)
    (fs : String → FileState)
    (h : ∀ p ∈ config_paths environment, fs p = FileState.missing) :
    load_test_config environment fs = Except.ok default_tests ∧
    (∃ t ∈ default_tests, t.validateJson = true) ∧
    (∃ t ∈ default_tests, t.expectedStatus = 200 ∧ t.validateJson = false) := by
  refine ⟨?_, by decide, by decide⟩
  unfold load_test_config
  rw [load_loop_all_missing ((config_paths environment).map fs) ?_]
  · intro x hx
    simp only [List.mem_map] at hx
    obtain ⟨p, hp, rfl⟩ := hx
    exact h p hp

/-- Witness for the amended C3: concretely, with no config file anywhere,
the default tests are returned. -/
theorem load_test_config_default_when_all_missing_witness :
    load_test_config "local-machine" allMissing = Except.ok default_tests ∧
    (∃ t ∈ default_tests, t.validateJson = true) ∧
    (∃ t ∈ default_tests, t.expectedStatus = 200 ∧ t.validateJson = false) :=
  load_test_config_default_when_all_missing "local-machine" allMissing
    fun _ _ => rfl

/-! ### Claim theorems: the result consumer -/

/-- A fixed field baseline for concrete consumer payloads. -/
def basePayload : SuiteSummary :=
  { fallbackSummary with
      test_suite_id := "test-20260101-000000-abcdef01"
      timestamp := "2026-01-01T00:00:01Z"
      total_tests := 10
      passed_tests := 8
      failed_tests := 2
      success_rate := 80
      total_duration_ms := 1000
      environment := "local-machine"
      runner := "Local Machine" }

/-- C7: the consumer's status label, alert level and color follow the
`failed == 0` / `success_rate >= 80` / else chain: zero failures give the
success label; a nonzero failure count with success rate at least 80
(including exactly 80) gives the partial label; a nonzero failure count
with success rate below 80 gives the failure label. -/
theorem notification_status_mapping (tr : SuiteSummary) :
    (tr.failed_tests = 0 →
      (process_test_results tr).status = "✅ ALL TESTS PASSED" ∧
      (process_test_results tr).alert_level = "success" ∧
      (process_test_results tr).color = "good") ∧
    (tr.failed_tests ≠ 0 → tr.success_rate ≥ 80 →
      (process_test_results tr).status = "⚠️ PARTIAL SUCCESS" ∧
      (process_test_results tr).alert_level = "warning" ∧
      (process_test_results tr).color = "warning") ∧
    (tr.failed_tests ≠ 0 → tr.success_rate < 80 →
      (process_test_results tr).status = "❌ TESTS FAILED" ∧
      (process_test_results tr).alert_level = "error" ∧
      (process_test_results tr).color = "danger") := by
  refine ⟨fun h0 => ?_, fun hne hge => ?_, fun hne hlt => ?_⟩
  · simp [process_test_results, h0]
  · simp [process_test_results, hne, hge]
  · simp [process_test_results, hne, not_le.mpr hlt]

/-- Witness for C7 at the three concrete boundary payloads: no failures,
two failures at rate exactly 80, and two failures at rate 75. -/
theorem notification_status_mapping_witness :
    (process_test_results { basePayload with failed_tests := 0 }).status
      = "✅ ALL TESTS PASSED" ∧
    (process_test_results basePayload).status = "⚠️ PARTIAL SUCCESS" ∧
    (process_test_results { basePayload with success_rate := 75 }).status
      = "❌ TESTS FAILED" :=
  ⟨((notification_status_mapping _).1 rfl).1,
   ((notification_status_mapping basePayload).2.1 (by decide) (by decide)).1,
   ((notification_status_mapping _).2.2 (by decide) (by decide)).1⟩

/-- C8: for every payload, the consumer's failure-detail list
(`failed_test_details[:5]`) has at most 5 entries, regardless of how many
results failed. -/
theorem failed_details_capped (tr : SuiteSummary) :
    (process_test_results tr).failed_details.length ≤ 5 :=
  List.length_take_le 5 _

end ApiTests


